import Mathlib

/-!
Shallow embedding of `src/poetry/installation/installer.py` (class `Installer`).

The installer core orchestrates dependency installation: it forces update mode
when no lock file exists, applies dry-run forcing, plans an ordered operation
list (via the external Solver in update mode, or via the lock-replay diff
`_get_operations_from_lock` otherwise), accumulates the result repository,
dispatches operations to the pip backend, and finally persists the lock via
`Locker.set_lock_data` when updating with lock-writing enabled.

External collaborators (Locker, Solver, InstalledRepository, PipInstaller, IO)
are not part of the source under verification; they are modelled as an
environment of pure functions and a trace of the calls the core makes to them.
-/

set_option autoImplicit false

namespace Poetry

/-- Requirements are opaque to the installer core: it only concatenates lists
of them and hands them to the Solver. -/
abbrev Requirement := String

/-- A resolved package: identity is the (normalized) name, with a version that
the reconciler compares for equality, plus runtime and development
requirement lists (`Package.requires` / `Package.dev_requires` in the source). -/
structure Package where
  name : String
  version : String
  requires : List Requirement
  dev_requires : List Requirement
deriving DecidableEq, Repr

/-- `Repository` from `poetry.repositories`: an insertion-ordered collection of
packages exposing `packages` and `add_package` (append). Only these two
members are used by the installer core. -/
structure Repository where
  packages : List Package
deriving DecidableEq, Repr

/-- `Repository()` — a freshly constructed, empty repository. -/
def Repository.empty : Repository := ⟨[]⟩

/-- `Repository.add_package` — appends a package, preserving insertion order. -/
def Repository.add_package (r : Repository) (p : Package) : Repository :=
  ⟨r.packages ++ [p]⟩

/-- The operation variants from `poetry.puzzle.operations`:
`Install(package)`, `Update(initial_package, target_package)`,
`Uninstall(package)`. -/
inductive Operation where
  | install (package : Package)
  | update (initial_package target_package : Package)
  | uninstall (package : Package)
deriving DecidableEq, Repr

/-- The `job_type` attribute the source dispatches and classifies on:
each operation class carries a fixed job-type string. -/
def Operation.job_type : Operation → String
  | .install _ => "install"
  | .update _ _ => "update"
  | .uninstall _ => "uninstall"

/-- One call made to the pip execution backend (`PipInstaller`):
`install(package)`, `update(from, to)` or `remove(package)`. -/
inductive BackendCall where
  | install (package : Package)
  | update (initial target : Package)
  | remove (package : Package)
deriving DecidableEq, Repr

/-- Embeds `_execute` together with `_execute_install`, `_execute_update` and
`_execute_uninstall`: dispatch on the operation's job type, performing exactly
one backend call per operation. -/
def execute_dispatch : Operation → BackendCall
  | .install p => .install p
  | .update i t => .update i t
  | .uninstall p => .remove p

/-- The informational lines the installer writes to its IO collaborator
(`writeln` calls; blank `new_line` calls are not modelled). The operation
counts reported by the "Package operations" line are carried as data. -/
inductive Message where
  | updating_dependencies
  | installing_from_lock
  | nothing_to_install
  | package_operations (installs updates removals : Nat)
  | writing_lock_file
deriving DecidableEq, Repr

/-- One call to `Locker.set_lock_data(root, packages)` together with the
boolean the locker returned (whether the persisted content actually changed). -/
structure LockDataCall where
  root : Package
  packages : List Package
  changed : Bool
deriving DecidableEq, Repr

/-- Modelled from the spec: the `Locker` collaborator contract —
`is_locked()`, `locked_repository(dev_mode)`, and `set_lock_data` whose
boolean result reports whether the persisted content actually changed. -/
structure Locker where
  is_locked : Bool
  locked_repository : Bool → Repository
  set_lock_data_changed : Package → List Package → Bool

/-- Modelled from the spec: the environment of external collaborators a run
interacts with — the Locker, the installed-packages snapshot
(`InstalledRepository.load`), the Solver (as a function of baseline repository,
requirements and available repository), and the success predicate of the pip
backend (a call with `backend_ok = false` raises). -/
structure Env where
  locker : Locker
  installed_repository : Repository
  solve : Repository → List Requirement → Repository → List Operation
  backend_ok : BackendCall → Bool

/-- The `Installer` object's state: the constructor-supplied root package and
available-packages repository, and the six boolean toggles with their
constructor defaults. -/
structure Installer where
  package : Package
  repository : Repository
  dry_run : Bool := false
  update : Bool := false
  verbose : Bool := false
  write_lock : Bool := true
  dev_mode : Bool := true
  execute_operations : Bool := true
deriving DecidableEq, Repr

/-- Lines 38-40 of `run`: `if not self._update and not self._locker.is_locked():
self._update = True`. -/
def force_update (inst : Installer) (env : Env) : Installer :=
  if !inst.update && !env.locker.is_locked then { inst with update := true } else inst

/-- Lines 42-45 of `run`: `if self.is_dry_run(): self.verbose(True);
self._write_lock = False; self._execute_operations = False`. -/
def force_dry_run (inst : Installer) : Installer :=
  if inst.dry_run then
    { inst with verbose := true, write_lock := false, execute_operations := false }
  else inst

/-- Inner loop of `_get_operations_from_lock`: scan the installed packages for
the locked package's name; record whether it is installed at all, and emit an
`Update(installed, locked)` for a name match with a differing version. -/
def lock_scan (locked : Package) : List Package → List Operation × Bool
  | [] => ([], false)
  | installed :: rest =>
    let r := lock_scan locked rest
    if locked.name = installed.name then
      ((if locked.version ≠ installed.version then [Operation.update installed locked]
        else []) ++ r.1, true)
    else r

/-- Outer loop of `_get_operations_from_lock`: for each locked package in
insertion order, append the inner scan's updates, then an `Install(locked)`
when no installed package shares its name. -/
def lock_diff (installed_pkgs : List Package) : List Package → List Operation
  | [] => []
  | locked :: rest =>
    let r := lock_scan locked installed_pkgs
    r.1 ++ (if r.2 then [] else [Operation.install locked]) ++ lock_diff installed_pkgs rest

/-- `_get_operations_from_lock(locked_repository)`: diff the locked repository
against the installed repository, producing the lock-replay operation list. -/
def get_operations_from_lock (locked_repository installed_repo : Repository) :
    List Operation :=
  lock_diff installed_repo.packages locked_repository.packages

/-- Result of the per-operation loop at the end of `_do_install`: the local
(result) repository, the backend calls made in order, and whether every
attempted backend call succeeded (`ok = false` means the run raised at the
last recorded call). -/
structure LoopResult where
  local_repo : Repository
  calls : List BackendCall
  ok : Bool
deriving DecidableEq, Repr

/-- The `for op in ops` loop of `_do_install`: add the package of an `Install`
and the target package of an `Update` to the local repository (nothing for an
`Uninstall`), then, when `execute_operations` holds, dispatch the operation to
the backend; a failing backend call aborts the loop. -/
def execute_loop (execute : Bool) (ok : BackendCall → Bool) :
    List Operation → Repository → LoopResult
  | [], repo => ⟨repo, [], true⟩
  | op :: rest, repo =>
    let repo' := match op with
      | .install p => repo.add_package p
      | .update _ t => repo.add_package t
      | .uninstall _ => repo
    if execute then
      let c := execute_dispatch op
      if ok c then
        let r := execute_loop execute ok rest repo'
        ⟨r.local_repo, c :: r.calls, r.ok⟩
      else ⟨repo', [c], false⟩
    else execute_loop execute ok rest repo'

/-- Count of operations of a given job type, as the reporting block of
`_do_install` computes by building and measuring per-type lists. -/
def count_job (ops : List Operation) (jt : String) : Nat :=
  (ops.filter fun op => op.job_type == jt).length

/-- Result of `_do_install`: the installer state (its root package is mutated
in place by `request += self._package.dev_requires` when `dev_mode` holds),
the messages written, the solver calls made, the backend calls made, the local
(result) repository, the planned operation list, and whether execution
completed without a backend failure. -/
structure DoInstallResult where
  installer : Installer
  messages : List Message
  solve_calls : List (Repository × List Requirement × Repository)
  backend_calls : List BackendCall
  local_repo : Repository
  ops : List Operation
  ok : Bool
deriving Repr

/-- `_do_install(local_repo)` with `local_repo` freshly empty: build the locked
repository (empty unless installing from lock), gather the request (the in-place
`request += dev_requires` also mutates the root package's `requires` list),
plan operations via the Solver (update mode) or the lock-replay diff, report,
and run the per-operation loop. -/
def Installer.do_install (inst : Installer) (env : Env) : DoInstallResult :=
  let locked_repository :=
    if inst.update then Repository.empty else env.locker.locked_repository inst.dev_mode
  let request :=
    if inst.dev_mode then inst.package.requires ++ inst.package.dev_requires
    else inst.package.requires
  let package' :=
    if inst.dev_mode then { inst.package with requires := request } else inst.package
  let ops :=
    if inst.update then env.solve locked_repository request inst.repository
    else get_operations_from_lock locked_repository env.installed_repository
  let mode_msg :=
    if inst.update then Message.updating_dependencies else Message.installing_from_lock
  let empty_msg := if ops.isEmpty then [Message.nothing_to_install] else []
  let count_msg :=
    if !ops.isEmpty && inst.execute_operations then
      [Message.package_operations (count_job ops "install") (count_job ops "update")
        (count_job ops "uninstall")]
    else []
  let r := execute_loop inst.execute_operations env.backend_ok ops Repository.empty
  { installer := { inst with package := package' }
    messages := [mode_msg] ++ empty_msg ++ count_msg
    solve_calls := if inst.update then [(locked_repository, request, inst.repository)] else []
    backend_calls := r.calls
    local_repo := r.local_repo
    ops := ops
    ok := r.ok }

/-- The full observable behavior of one call to the external collaborators:
messages written, solver invocations, backend calls, and lock-data calls. -/
structure Trace where
  messages : List Message
  solve_calls : List (Repository × List Requirement × Repository)
  backend_calls : List BackendCall
  lock_data_calls : List LockDataCall
deriving Repr

/-- Result of `run()`: the installer object afterwards (flag and root-package
mutations persist), the trace of collaborator calls, the returned status
(`some 0` on normal completion, `none` when a backend failure propagated), the
local (result) repository, and the planned operation list. -/
structure RunResult where
  installer : Installer
  trace : Trace
  status : Option Nat
  local_repo : Repository
  ops : List Operation
deriving Repr

/-- `run()`: force update when unlocked, apply dry-run forcing, run
`_do_install` into a fresh repository, and, when updating with lock-writing
enabled, call `Locker.set_lock_data` and report the lock write when the locker
says the content changed. -/
def Installer.run (inst : Installer) (env : Env) : RunResult :=
  let inst1 := force_update inst env
  let inst2 := force_dry_run inst1
  let d := inst2.do_install env
  if d.ok then
    if inst2.update && inst2.write_lock then
      let changed := env.locker.set_lock_data_changed d.installer.package d.local_repo.packages
      { installer := d.installer
        trace :=
          { messages := d.messages ++ (if changed then [Message.writing_lock_file] else [])
            solve_calls := d.solve_calls
            backend_calls := d.backend_calls
            lock_data_calls := [⟨d.installer.package, d.local_repo.packages, changed⟩] }
        status := some 0
        local_repo := d.local_repo
        ops := d.ops }
    else
      { installer := d.installer
        trace := ⟨d.messages, d.solve_calls, d.backend_calls, []⟩
        status := some 0
        local_repo := d.local_repo
        ops := d.ops }
  else
    { installer := d.installer
      trace := ⟨d.messages, d.solve_calls, d.backend_calls, []⟩
      status := none
      local_repo := d.local_repo
      ops := d.ops }

/-- The configuration state `run` plans with: the initial state after the
update-forcing and dry-run-forcing steps. -/
def run_forced (inst : Installer) (env : Env) : Installer :=
  force_dry_run (force_update inst env)

/-- The `_do_install` call `run` performs, on the forced configuration. -/
def run_install_result (inst : Installer) (env : Env) : DoInstallResult :=
  (run_forced inst env).do_install env

theorem run_install_result_eq (inst : Installer) (env : Env) :
    run_install_result inst env = (run_forced inst env).do_install env := rfl

@[simp] theorem run_forced_package (inst : Installer) (env : Env) :
    (run_forced inst env).package = inst.package := by
  unfold run_forced force_dry_run force_update
  cases hd : inst.dry_run <;> cases hu : inst.update <;>
    cases hl : env.locker.is_locked <;> simp [hd, hu, hl]

@[simp] theorem run_forced_repository (inst : Installer) (env : Env) :
    (run_forced inst env).repository = inst.repository := by
  unfold run_forced force_dry_run force_update
  cases hd : inst.dry_run <;> cases hu : inst.update <;>
    cases hl : env.locker.is_locked <;> simp [hd, hu, hl]

@[simp] theorem run_forced_dry_run (inst : Installer) (env : Env) :
    (run_forced inst env).dry_run = inst.dry_run := by
  unfold run_forced force_dry_run force_update
  cases hd : inst.dry_run <;> cases hu : inst.update <;>
    cases hl : env.locker.is_locked <;> simp [hd, hu, hl]

@[simp] theorem run_forced_dev_mode (inst : Installer) (env : Env) :
    (run_forced inst env).dev_mode = inst.dev_mode := by
  unfold run_forced force_dry_run force_update
  cases hd : inst.dry_run <;> cases hu : inst.update <;>
    cases hl : env.locker.is_locked <;> simp [hd, hu, hl]

@[simp] theorem run_forced_update (inst : Installer) (env : Env) :
    (run_forced inst env).update = (inst.update || !env.locker.is_locked) := by
  unfold run_forced force_dry_run force_update
  cases hd : inst.dry_run <;> cases hu : inst.update <;>
    cases hl : env.locker.is_locked <;> simp [hd, hu, hl]

@[simp] theorem run_forced_verbose (inst : Installer) (env : Env) :
    (run_forced inst env).verbose = (inst.verbose || inst.dry_run) := by
  unfold run_forced force_dry_run force_update
  cases hd : inst.dry_run <;> cases hu : inst.update <;>
    cases hl : env.locker.is_locked <;> simp [hd, hu, hl]

@[simp] theorem run_forced_write_lock (inst : Installer) (env : Env) :
    (run_forced inst env).write_lock = (inst.write_lock && !inst.dry_run) := by
  unfold run_forced force_dry_run force_update
  cases hd : inst.dry_run <;> cases hu : inst.update <;>
    cases hl : env.locker.is_locked <;> simp [hd, hu, hl]

@[simp] theorem run_forced_execute_operations (inst : Installer) (env : Env) :
    (run_forced inst env).execute_operations =
      (inst.execute_operations && !inst.dry_run) := by
  unfold run_forced force_dry_run force_update
  cases hd : inst.dry_run <;> cases hu : inst.update <;>
    cases hl : env.locker.is_locked <;> simp [hd, hu, hl]

/-- The request list `_do_install` gathers: runtime requirements, extended by
the development requirements exactly when `dev_mode` holds. -/
def gathered_request (inst : Installer) : List Requirement :=
  if inst.dev_mode then inst.package.requires ++ inst.package.dev_requires
  else inst.package.requires

@[simp] theorem do_install_ops (inst : Installer) (env : Env) :
    (inst.do_install env).ops =
      (if inst.update then
        env.solve Repository.empty (gathered_request inst) inst.repository
      else
        get_operations_from_lock (env.locker.locked_repository inst.dev_mode)
          env.installed_repository) := by
  unfold Installer.do_install gathered_request
  cases hu : inst.update <;> simp [hu]

@[simp] theorem do_install_solve_calls (inst : Installer) (env : Env) :
    (inst.do_install env).solve_calls =
      (if inst.update then [(Repository.empty, gathered_request inst, inst.repository)]
       else []) := by
  unfold Installer.do_install gathered_request
  cases hu : inst.update <;> simp [hu]

@[simp] theorem do_install_installer (inst : Installer) (env : Env) :
    (inst.do_install env).installer =
      { inst with package :=
          if inst.dev_mode then
            { inst.package with requires := inst.package.requires ++ inst.package.dev_requires }
          else inst.package } := by
  unfold Installer.do_install
  cases hd : inst.dev_mode <;> simp [hd]

@[simp] theorem do_install_backend_calls (inst : Installer) (env : Env) :
    (inst.do_install env).backend_calls =
      (execute_loop inst.execute_operations env.backend_ok (inst.do_install env).ops
        Repository.empty).calls := rfl

@[simp] theorem do_install_local_repo (inst : Installer) (env : Env) :
    (inst.do_install env).local_repo =
      (execute_loop inst.execute_operations env.backend_ok (inst.do_install env).ops
        Repository.empty).local_repo := rfl

@[simp] theorem do_install_ok (inst : Installer) (env : Env) :
    (inst.do_install env).ok =
      (execute_loop inst.execute_operations env.backend_ok (inst.do_install env).ops
        Repository.empty).ok := rfl

theorem do_install_messages (inst : Installer) (env : Env) :
    (inst.do_install env).messages =
      [if inst.update then Message.updating_dependencies else Message.installing_from_lock]
      ++ (if (inst.do_install env).ops.isEmpty then [Message.nothing_to_install] else [])
      ++ (if !(inst.do_install env).ops.isEmpty && inst.execute_operations then
            [Message.package_operations (count_job (inst.do_install env).ops "install")
              (count_job (inst.do_install env).ops "update")
              (count_job (inst.do_install env).ops "uninstall")]
          else []) := rfl

@[simp] theorem run_installer (inst : Installer) (env : Env) :
    (inst.run env).installer = (run_install_result inst env).installer := by
  unfold Installer.run run_install_result run_forced
  dsimp only
  split
  · split <;> rfl
  · rfl

@[simp] theorem run_ops (inst : Installer) (env : Env) :
    (inst.run env).ops = (run_install_result inst env).ops := by
  unfold Installer.run run_install_result run_forced
  dsimp only
  split
  · split <;> rfl
  · rfl

@[simp] theorem run_local_repo (inst : Installer) (env : Env) :
    (inst.run env).local_repo = (run_install_result inst env).local_repo := by
  unfold Installer.run run_install_result run_forced
  dsimp only
  split
  · split <;> rfl
  · rfl

@[simp] theorem run_backend_calls (inst : Installer) (env : Env) :
    (inst.run env).trace.backend_calls = (run_install_result inst env).backend_calls := by
  unfold Installer.run run_install_result run_forced
  dsimp only
  split
  · split <;> rfl
  · rfl

@[simp] theorem run_solve_calls (inst : Installer) (env : Env) :
    (inst.run env).trace.solve_calls = (run_install_result inst env).solve_calls := by
  unfold Installer.run run_install_result run_forced
  dsimp only
  split
  · split <;> rfl
  · rfl

theorem run_status (inst : Installer) (env : Env) :
    (inst.run env).status =
      (if (run_install_result inst env).ok then some 0 else none) := by
  unfold Installer.run run_install_result run_forced
  dsimp only
  split
  · split <;> simp_all
  · simp_all

theorem run_lock_data_calls (inst : Installer) (env : Env) :
    (inst.run env).trace.lock_data_calls =
      (if (run_install_result inst env).ok && (run_forced inst env).update &&
            (run_forced inst env).write_lock then
        [⟨(run_install_result inst env).installer.package,
          (run_install_result inst env).local_repo.packages,
          env.locker.set_lock_data_changed (run_install_result inst env).installer.package
            (run_install_result inst env).local_repo.packages⟩]
      else []) := by
  unfold Installer.run run_install_result run_forced
  dsimp only
  split
  · split <;> simp_all
  · simp_all

theorem run_messages (inst : Installer) (env : Env) :
    (inst.run env).trace.messages =
      (run_install_result inst env).messages ++
        (if (run_install_result inst env).ok && (run_forced inst env).update &&
              (run_forced inst env).write_lock &&
              env.locker.set_lock_data_changed (run_install_result inst env).installer.package
                (run_install_result inst env).local_repo.packages then
          [Message.writing_lock_file]
        else []) := by
  unfold Installer.run run_install_result run_forced
  dsimp only
  split
  · split
    · split <;> simp_all
    · simp_all
  · simp_all

/-- Modelled from the spec (§4.2): the per-locked-package emission rule of the
Reconciler — `Update(installed, locked)` when an installed package shares the
name with a differing version, nothing when versions are equal, and
`Install(locked)` when the name is not installed. -/
def diff_spec (installed_pkgs : List Package) (locked : Package) : List Operation :=
  match installed_pkgs.find? (fun i => i.name == locked.name) with
  | some i => if locked.version ≠ i.version then [Operation.update i locked] else []
  | none => [Operation.install locked]

theorem lock_scan_not_found (locked : Package) (pkgs : List Package)
    (h : ∀ i ∈ pkgs, locked.name ≠ i.name) :
    lock_scan locked pkgs = ([], false) := by
  induction pkgs with
  | nil => rfl
  | cons i rest ih =>
    have hi : locked.name ≠ i.name := h i (List.mem_cons_self i rest)
    simp only [lock_scan, if_neg hi]
    exact ih fun j hj => h j (List.mem_cons_of_mem i hj)

theorem lock_scan_eq_find (locked : Package) (pkgs : List Package)
    (h : pkgs.Pairwise fun a b => a.name ≠ b.name) :
    lock_scan locked pkgs =
      match pkgs.find? (fun i => i.name == locked.name) with
      | some i =>
        ((if locked.version ≠ i.version then [Operation.update i locked] else []), true)
      | none => ([], false) := by
  induction pkgs with
  | nil => rfl
  | cons i rest ih =>
    rcases List.pairwise_cons.mp h with ⟨hhead, htail⟩
    by_cases hn : locked.name = i.name
    · have hfind : (i :: rest).find? (fun j => j.name == locked.name) = some i := by
        simp [List.find?, hn.symm]
      have hrest : lock_scan locked rest = ([], false) :=
        lock_scan_not_found locked rest fun j hj => hn ▸ hhead j hj
      simp [lock_scan, hn, hrest, hfind]
    · have hfind : (i :: rest).find? (fun j => j.name == locked.name) =
          rest.find? (fun j => j.name == locked.name) := by
        simp only [List.find?]
        have : (i.name == locked.name) = false := by
          simp only [beq_eq_false_iff_ne, ne_eq]
          exact fun he => hn he.symm
        rw [this]
      simp only [lock_scan, if_neg hn, hfind]
      exact ih htail

theorem lock_diff_eq_flatMap (installed_pkgs locked_pkgs : List Package)
    (h : installed_pkgs.Pairwise fun a b => a.name ≠ b.name) :
    lock_diff installed_pkgs locked_pkgs =
      locked_pkgs.flatMap (diff_spec installed_pkgs) := by
  induction locked_pkgs with
  | nil => rfl
  | cons l rest ih =>
    simp only [lock_diff, List.flatMap_cons, lock_scan_eq_find l installed_pkgs h, ih]
    unfold diff_spec
    cases hf : installed_pkgs.find? (fun i => i.name == l.name) with
    | some i => simp
    | none => simp

theorem diff_spec_no_uninstall (installed_pkgs : List Package) (locked : Package) :
    ∀ op ∈ diff_spec installed_pkgs locked, op.job_type ≠ "uninstall" := by
  intro op hop
  unfold diff_spec at hop
  cases hf : installed_pkgs.find? (fun i => i.name == locked.name) with
  | some i =>
    rw [hf] at hop
    by_cases hv : locked.version = i.version
    · simp [hv] at hop
    · simp only [if_pos hv, List.mem_singleton] at hop
      subst hop
      simp [Operation.job_type]
  | none =>
    rw [hf] at hop
    simp only [List.mem_singleton] at hop
    subst hop
    simp [Operation.job_type]

/-- C1: the lock-replay diff visits the locked packages in insertion order and,
per locked package, emits `Update(installed, locked)` exactly when an installed
package shares its name with a differing version (toward the locked version,
downgrade or upgrade alike), nothing when the versions are equal, and
`Install(locked)` exactly when the name is not installed; packages present only
in the installed set are never visited, and no `Uninstall` is ever emitted. -/
theorem reconciler_diff_correct (locked_repository installed_repo : Repository)
    (h : installed_repo.packages.Pairwise fun a b => a.name ≠ b.name) :
    get_operations_from_lock locked_repository installed_repo =
      locked_repository.packages.flatMap (diff_spec installed_repo.packages) ∧
    ∀ op ∈ get_operations_from_lock locked_repository installed_repo,
      op.job_type ≠ "uninstall" := by
  have heq := lock_diff_eq_flatMap installed_repo.packages locked_repository.packages h
  refine ⟨heq, ?_⟩
  intro op hop
  rw [get_operations_from_lock, heq] at hop
  rcases List.mem_flatMap.mp hop with ⟨l, _, hl⟩
  exact diff_spec_no_uninstall installed_repo.packages l op hl

/-- Concrete packages used by witness and counterexample runs. -/
def pkgA1 : Package := ⟨"a", "1.0", [], []⟩

def pkgA2 : Package := ⟨"a", "2.0", [], []⟩

def pkgB1 : Package := ⟨"b", "1.0", [], []⟩

def pkgC1 : Package := ⟨"c", "1.0", [], []⟩

def pkgD1 : Package := ⟨"d", "1.0", [], []⟩

def pkgRoot : Package := ⟨"root", "0.1", ["req-a"], ["req-dev"]⟩

/-- A quiescent environment: a lock exists, the locked repository is empty, the
solver returns no operations, every backend call succeeds, and lock content
always counts as changed. -/
def envQuiet : Env :=
  { locker := ⟨true, fun _ => ⟨[]⟩, fun _ _ => true⟩
    installed_repository := ⟨[]⟩
    solve := fun _ _ _ => []
    backend_ok := fun _ => true }

/-- C1 witness: a run of the diff on `locked = [a@1.0, b@1.0, d@1.0]` against
`installed = [a@2.0, b@1.0, c@1.0]` — an update toward the locked version for
`a`, nothing for the equal `b`, an install for the missing `d`, and nothing for
the installed-only `c`. -/
theorem reconciler_diff_correct_witness :
    (List.Pairwise (fun a b => a.name ≠ b.name) [pkgA2, pkgB1, pkgC1]) ∧
    (get_operations_from_lock ⟨[pkgA1, pkgB1, pkgD1]⟩ ⟨[pkgA2, pkgB1, pkgC1]⟩ =
        [pkgA1, pkgB1, pkgD1].flatMap (diff_spec [pkgA2, pkgB1, pkgC1]) ∧
      ∀ op ∈ get_operations_from_lock ⟨[pkgA1, pkgB1, pkgD1]⟩ ⟨[pkgA2, pkgB1, pkgC1]⟩,
        op.job_type ≠ "uninstall") :=
  ⟨by decide, reconciler_diff_correct ⟨[pkgA1, pkgB1, pkgD1]⟩ ⟨[pkgA2, pkgB1, pkgC1]⟩
    (by decide)⟩

/-- Modelled from the spec (§4.1): the result set built by traversing the
operation list in order — the package of each `Install`, the target package of
each `Update`, nothing for an `Uninstall`. -/
def result_packages_spec (ops : List Operation) : List Package :=
  ops.flatMap fun op => match op with
    | .install p => [p]
    | .update _ t => [t]
    | .uninstall _ => []

theorem execute_loop_no_execute (ok : BackendCall → Bool) (ops : List Operation)
    (repo : Repository) :
    execute_loop false ok ops repo =
      ⟨⟨repo.packages ++ result_packages_spec ops⟩, [], true⟩ := by
  induction ops generalizing repo with
  | nil => simp [execute_loop, result_packages_spec]
  | cons op rest ih =>
    cases op <;>
      simp [execute_loop, result_packages_spec, Repository.add_package, ih,
        List.append_assoc]

theorem execute_loop_all_ok (ok : BackendCall → Bool) (ops : List Operation)
    (repo : Repository) (h : ∀ op ∈ ops, ok (execute_dispatch op) = true) :
    execute_loop true ok ops repo =
      ⟨⟨repo.packages ++ result_packages_spec ops⟩, ops.map execute_dispatch, true⟩ := by
  induction ops generalizing repo with
  | nil => simp [execute_loop, result_packages_spec]
  | cons op rest ih =>
    have hop : ok (execute_dispatch op) = true := h op (List.mem_cons_self op rest)
    have hrest : ∀ o ∈ rest, ok (execute_dispatch o) = true :=
      fun o ho => h o (List.mem_cons_of_mem op ho)
    cases op <;>
      simp [execute_loop, result_packages_spec, Repository.add_package, hop,
        ih _ hrest, List.append_assoc]

/-- The local-repository step of one loop iteration: add the package of an
`Install`, the target of an `Update`, nothing for an `Uninstall`. -/
def step_repo (repo : Repository) : Operation → Repository
  | .install p => repo.add_package p
  | .update _ t => repo.add_package t
  | .uninstall _ => repo

theorem execute_loop_cons_ok (ok : BackendCall → Bool) (op : Operation)
    (rest : List Operation) (repo : Repository)
    (hop : ok (execute_dispatch op) = true) :
    execute_loop true ok (op :: rest) repo =
      ⟨(execute_loop true ok rest (step_repo repo op)).local_repo,
       execute_dispatch op :: (execute_loop true ok rest (step_repo repo op)).calls,
       (execute_loop true ok rest (step_repo repo op)).ok⟩ := by
  cases op <;> simp [execute_loop, hop, step_repo]

theorem step_repo_packages (repo : Repository) (op : Operation) :
    (step_repo repo op).packages = repo.packages ++ result_packages_spec [op] := by
  cases op <;> simp [step_repo, Repository.add_package, result_packages_spec]

theorem execute_loop_ok_local_repo (e : Bool) (ok : BackendCall → Bool)
    (ops : List Operation) (repo : Repository)
    (h : (execute_loop e ok ops repo).ok = true) :
    (execute_loop e ok ops repo).local_repo =
      ⟨repo.packages ++ result_packages_spec ops⟩ := by
  cases e with
  | false => rw [execute_loop_no_execute]
  | true =>
    induction ops generalizing repo with
    | nil =>
      show repo = (⟨repo.packages ++ result_packages_spec []⟩ : Repository)
      simp [result_packages_spec]
    | cons op rest ih =>
      by_cases hop : ok (execute_dispatch op) = true
      · rw [execute_loop_cons_ok ok op rest repo hop] at h ⊢
        dsimp only at h ⊢
        rw [ih _ h, step_repo_packages]
        simp [result_packages_spec, List.append_assoc]
      · exfalso
        cases op <;> simp [execute_loop, hop] at h

theorem execute_loop_first_fail (ok : BackendCall → Bool) (pre : List Operation)
    (opk : Operation) (post : List Operation) (repo : Repository)
    (hpre : ∀ op ∈ pre, ok (execute_dispatch op) = true)
    (hk : ok (execute_dispatch opk) = false) :
    (execute_loop true ok (pre ++ opk :: post) repo).calls =
        (pre ++ [opk]).map execute_dispatch ∧
    (execute_loop true ok (pre ++ opk :: post) repo).ok = false := by
  induction pre generalizing repo with
  | nil =>
    cases opk <;> simp [execute_loop, hk]
  | cons p pre' ih =>
    have hp : ok (execute_dispatch p) = true := hpre p (List.mem_cons_self p pre')
    have hpre' : ∀ op ∈ pre', ok (execute_dispatch op) = true :=
      fun op ho => hpre op (List.mem_cons_of_mem p ho)
    rw [List.cons_append, execute_loop_cons_ok ok p _ _ hp]
    constructor
    · dsimp only
      rw [(ih _ hpre').1, List.cons_append, List.map_cons]
    · dsimp only
      exact (ih _ hpre').2

/-- An installer over the concrete root package with default toggles
(lock-replay mode when a lock exists). -/
def instLockReplay : Installer := { package := pkgRoot, repository := ⟨[]⟩ }

/-- An environment whose lock exists and records `a@1.0` as locked while
nothing is installed, so lock-replay plans one install. -/
def envLockB : Env :=
  { locker := ⟨true, fun _ => ⟨[pkgA1]⟩, fun _ _ => true⟩
    installed_repository := ⟨[]⟩
    solve := fun _ _ _ => []
    backend_ok := fun _ => true }

/-- C2 counterexample: with an identical fixed input whose plan is one install,
the dry run reports no operation-counts line at all (the "Package operations"
report is gated on `execute_operations`, which dry-run forces off), while the
`dry_run = false` run reports counts 1/0/0 — so the reported counts are not
the same. -/
theorem dry_run_report_counterexample :
    ({ instLockReplay with dry_run := true }.run envLockB).trace.messages =
        [Message.installing_from_lock] ∧
    (instLockReplay.run envLockB).trace.messages =
        [Message.installing_from_lock, Message.package_operations 1 0 0] := by decide

/-- C2 amended: with `dry_run = true`, the backend receives zero calls and
`Locker.set_lock_data` is never called, and the planned operation list equals
the one the `dry_run = false` run on identical inputs would plan (the
operation-counts report line, however, is suppressed in dry-run because it is
gated on `execute_operations`). -/
theorem dry_run_no_effects_same_plan (inst : Installer) (env : Env)
    (h : inst.dry_run = true) :
    (inst.run env).trace.backend_calls = [] ∧
    (inst.run env).trace.lock_data_calls = [] ∧
    (inst.run env).ops = ({ inst with dry_run := false }.run env).ops := by
  refine ⟨?_, ?_, ?_⟩
  · rw [run_backend_calls, run_install_result_eq, do_install_backend_calls]
    have he : (run_forced inst env).execute_operations = false := by simp [h]
    rw [he, execute_loop_no_execute]
  · simp [run_lock_data_calls, h]
  · rw [run_ops, run_ops, run_install_result_eq, run_install_result_eq,
      do_install_ops, do_install_ops]
    simp [gathered_request]

/-- C2 witness: the amended dry-run theorem applied at the concrete one-install
input. -/
theorem dry_run_no_effects_same_plan_witness :
    (({ instLockReplay with dry_run := true } : Installer).dry_run = true) ∧
    (({ instLockReplay with dry_run := true }.run envLockB).trace.backend_calls = [] ∧
     ({ instLockReplay with dry_run := true }.run envLockB).trace.lock_data_calls = [] ∧
     ({ instLockReplay with dry_run := true }.run envLockB).ops =
       ({ { instLockReplay with dry_run := true } with dry_run := false }.run
         envLockB).ops) :=
  ⟨rfl, dry_run_no_effects_same_plan { instLockReplay with dry_run := true } envLockB rfl⟩

/-- An installer in update mode over the concrete root package. -/
def instUpd : Installer := { package := pkgRoot, repository := ⟨[]⟩, update := true }

/-- C3 counterexample: in update mode with lock-writing enabled, a run whose
planned operation list is empty still calls `Locker.set_lock_data` (with the
empty result set) — "nothing to do" does not imply no further action. -/
theorem empty_plan_lock_call_counterexample :
    (instUpd.run envQuiet).ops = [] ∧
    (instUpd.run envQuiet).trace.lock_data_calls ≠ [] := by decide

/-- C3 amended: when the planned operation list is empty the core reports
"nothing to install or update" and makes no backend call; however
`Locker.set_lock_data` is still called exactly when `update` and `write_lock`
hold after mode forcing. -/
theorem empty_plan_amended (inst : Installer) (env : Env)
    (h : (inst.run env).ops = []) :
    Message.nothing_to_install ∈ (inst.run env).trace.messages ∧
    (inst.run env).trace.backend_calls = [] ∧
    ((inst.run env).trace.lock_data_calls ≠ [] ↔
      ((inst.run env).installer.update = true ∧
        (inst.run env).installer.write_lock = true)) := by
  rw [run_ops, run_install_result_eq] at h
  have hok : (run_install_result inst env).ok = true := by
    rw [run_install_result_eq, do_install_ok, h]
    rfl
  refine ⟨?_, ?_, ?_⟩
  · rw [run_messages, run_install_result_eq, do_install_messages, h]
    simp
  · rw [run_backend_calls, run_install_result_eq, do_install_backend_calls, h]
    rfl
  · rw [run_lock_data_calls, hok, run_installer, run_install_result_eq,
      do_install_installer]
    dsimp only
    cases hu : (run_forced inst env).update <;>
      cases hw : (run_forced inst env).write_lock <;> simp

/-- C3 witness: the amended empty-plan theorem applied at a concrete
lock-replay run with an empty locked repository. -/
theorem empty_plan_amended_witness :
    ((instLockReplay.run envQuiet).ops = []) ∧
    (Message.nothing_to_install ∈ (instLockReplay.run envQuiet).trace.messages ∧
     (instLockReplay.run envQuiet).trace.backend_calls = [] ∧
     ((instLockReplay.run envQuiet).trace.lock_data_calls ≠ [] ↔
       ((instLockReplay.run envQuiet).installer.update = true ∧
         (instLockReplay.run envQuiet).installer.write_lock = true))) :=
  ⟨by decide, empty_plan_amended instLockReplay envQuiet (by decide)⟩

theorem rir_installer_update (inst : Installer) (env : Env) :
    (run_install_result inst env).installer.update = (run_forced inst env).update := rfl

theorem rir_installer_write_lock (inst : Installer) (env : Env) :
    (run_install_result inst env).installer.write_lock =
      (run_forced inst env).write_lock := rfl

theorem rir_installer_execute_operations (inst : Installer) (env : Env) :
    (run_install_result inst env).installer.execute_operations =
      (run_forced inst env).execute_operations := rfl

theorem run_status_ok (inst : Installer) (env : Env)
    (h : (inst.run env).status = some 0) :
    (run_install_result inst env).ok = true := by
  rw [run_status] at h
  cases ho : (run_install_result inst env).ok
  · rw [ho] at h
    simp at h
  · rfl

/-- C4: after a successful run, the result repository's packages are exactly
those accumulated by traversing the operation list in order — the package of
each `Install`, the target package of each `Update` (never the initial one),
nothing for an `Uninstall` — and every `Locker.set_lock_data` call receives
precisely this package list as the new lock state. -/
theorem result_set_spec (inst : Installer) (env : Env)
    (h : (inst.run env).status = some 0) :
    (inst.run env).local_repo.packages = result_packages_spec ((inst.run env).ops) ∧
    ∀ c ∈ (inst.run env).trace.lock_data_calls,
      c.packages = (inst.run env).local_repo.packages := by
  have hok := run_status_ok inst env h
  have hrepo : (inst.run env).local_repo =
      ⟨result_packages_spec ((inst.run env).ops)⟩ := by
    rw [run_local_repo, run_ops, run_install_result_eq, do_install_local_repo]
    rw [run_install_result_eq, do_install_ok] at hok
    rw [execute_loop_ok_local_repo _ _ _ _ hok]
    rfl
  refine ⟨by rw [hrepo], ?_⟩
  intro c hc
  rw [run_lock_data_calls] at hc
  split at hc
  · have hcx := List.mem_singleton.mp hc
    subst hcx
    rw [run_local_repo]
  · exact absurd hc (List.not_mem_nil c)

/-- C4 witness: the result-set theorem applied at the concrete one-install
lock-replay run. -/
theorem result_set_spec_witness :
    ((instLockReplay.run envLockB).status = some 0) ∧
    ((instLockReplay.run envLockB).local_repo.packages =
        result_packages_spec ((instLockReplay.run envLockB).ops) ∧
      ∀ c ∈ (instLockReplay.run envLockB).trace.lock_data_calls,
        c.packages = (instLockReplay.run envLockB).local_repo.packages) :=
  ⟨by decide, result_set_spec instLockReplay envLockB (by decide)⟩

theorem writing_not_in_do_install (inst : Installer) (env : Env) :
    Message.writing_lock_file ∉ (inst.do_install env).messages := by
  rw [do_install_messages]
  intro hm
  simp only [List.mem_append] at hm
  rcases hm with (hm | hm) | hm
  · rcases List.mem_singleton.mp hm with hq
    split at hq <;> simp_all
  · split at hm <;> simp_all
  · split at hm <;> simp_all

/-- C5: on a successful run, the persisted lock changes (a `set_lock_data` call
returning true) iff `update` and `write_lock` hold after forcing and the
locker's content comparison on the result set reports a change; the "Writing
lock file" message is reported exactly when a call returned true; and
`set_lock_data` is called exactly when `update` and `write_lock` hold. -/
theorem lock_write_iff (inst : Installer) (env : Env)
    (h : (inst.run env).status = some 0) :
    ((∃ c ∈ (inst.run env).trace.lock_data_calls, c.changed = true) ↔
      ((inst.run env).installer.update = true ∧
        (inst.run env).installer.write_lock = true ∧
        env.locker.set_lock_data_changed (inst.run env).installer.package
          (inst.run env).local_repo.packages = true)) ∧
    (Message.writing_lock_file ∈ (inst.run env).trace.messages ↔
      ∃ c ∈ (inst.run env).trace.lock_data_calls, c.changed = true) ∧
    ((inst.run env).trace.lock_data_calls ≠ [] ↔
      ((inst.run env).installer.update = true ∧
        (inst.run env).installer.write_lock = true)) := by
  have hok := run_status_ok inst env h
  have hnotin : Message.writing_lock_file ∉ (run_install_result inst env).messages := by
    rw [run_install_result_eq]
    exact writing_not_in_do_install (run_forced inst env) env
  rw [run_messages, run_lock_data_calls, run_installer, run_local_repo, hok,
    rir_installer_update, rir_installer_write_lock]
  cases hu : (run_forced inst env).update <;>
    cases hw : (run_forced inst env).write_lock <;>
      cases hch : env.locker.set_lock_data_changed
          (run_install_result inst env).installer.package
          (run_install_result inst env).local_repo.packages <;>
        simp [hnotin]

/-- C5 witness: the lock-write theorem applied at a concrete update-mode run
with an empty plan whose lock content comparison reports a change. -/
theorem lock_write_iff_witness :
    ((instUpd.run envQuiet).status = some 0) ∧
    (((∃ c ∈ (instUpd.run envQuiet).trace.lock_data_calls, c.changed = true) ↔
       ((instUpd.run envQuiet).installer.update = true ∧
         (instUpd.run envQuiet).installer.write_lock = true ∧
         envQuiet.locker.set_lock_data_changed (instUpd.run envQuiet).installer.package
           (instUpd.run envQuiet).local_repo.packages = true)) ∧
     (Message.writing_lock_file ∈ (instUpd.run envQuiet).trace.messages ↔
       ∃ c ∈ (instUpd.run envQuiet).trace.lock_data_calls, c.changed = true) ∧
     ((instUpd.run envQuiet).trace.lock_data_calls ≠ [] ↔
       ((instUpd.run envQuiet).installer.update = true ∧
         (instUpd.run envQuiet).installer.write_lock = true))) :=
  ⟨by decide, lock_write_iff instUpd envQuiet (by decide)⟩

/-- C6: in update mode (after forcing), the Solver is invoked exactly once,
with an empty baseline locked set and with the root package's runtime
requirements, extended by its development requirements iff `dev_mode` holds. -/
theorem update_mode_solver_inputs (inst : Installer) (env : Env)
    (h : (inst.run env).installer.update = true) :
    (inst.run env).trace.solve_calls =
      [(Repository.empty,
        (if inst.dev_mode then inst.package.requires ++ inst.package.dev_requires
         else inst.package.requires),
        inst.repository)] := by
  rw [run_installer, rir_installer_update] at h
  rw [run_solve_calls, run_install_result_eq, do_install_solve_calls, h]
  simp [gathered_request]

/-- C6 witness: the solver-inputs theorem applied at a concrete update-mode
run with a dev-mode root package. -/
theorem update_mode_solver_inputs_witness :
    ((instUpd.run envQuiet).installer.update = true) ∧
    ((instUpd.run envQuiet).trace.solve_calls =
      [(Repository.empty,
        (if instUpd.dev_mode then instUpd.package.requires ++ instUpd.package.dev_requires
         else instUpd.package.requires),
        instUpd.repository)]) :=
  ⟨by decide, update_mode_solver_inputs instUpd envQuiet (by decide)⟩

/-- C7: with `execute_operations` in force, operations are dispatched to the
backend strictly in list order, one call per operation according to its kind;
when every call succeeds the run completes with status 0 having made exactly
one call per operation, and when the call for some operation fails, the calls
made are exactly those up to and including the failing one, the failure
propagates (status is an error), and `set_lock_data` is never called. -/
theorem execute_order_and_failure (inst : Installer) (env : Env)
    (h : (inst.run env).installer.execute_operations = true) :
    ((∀ op ∈ (inst.run env).ops, env.backend_ok (execute_dispatch op) = true) →
      (inst.run env).trace.backend_calls = ((inst.run env).ops).map execute_dispatch ∧
      (inst.run env).status = some 0) ∧
    (∀ pre opk post, (inst.run env).ops = pre ++ opk :: post →
      (∀ op ∈ pre, env.backend_ok (execute_dispatch op) = true) →
      env.backend_ok (execute_dispatch opk) = false →
      (inst.run env).trace.backend_calls = (pre ++ [opk]).map execute_dispatch ∧
      (inst.run env).status = none ∧
      (inst.run env).trace.lock_data_calls = []) := by
  rw [run_installer, rir_installer_execute_operations] at h
  constructor
  · intro hall
    rw [run_ops, run_install_result_eq] at hall
    have hloop := execute_loop_all_ok env.backend_ok
      ((run_forced inst env).do_install env).ops Repository.empty hall
    refine ⟨?_, ?_⟩
    · rw [run_backend_calls, run_install_result_eq, do_install_backend_calls, h, hloop,
        run_ops, run_install_result_eq]
    · rw [run_status, run_install_result_eq, do_install_ok, h, hloop]
      rfl
  · intro pre opk post hsplit hpre hk
    rw [run_ops, run_install_result_eq] at hsplit
    have hloop := execute_loop_first_fail env.backend_ok pre opk post Repository.empty
      hpre hk
    have hokf : (run_install_result inst env).ok = false := by
      rw [run_install_result_eq, do_install_ok, h, hsplit]
      exact hloop.2
    refine ⟨?_, ?_, ?_⟩
    · rw [run_backend_calls, run_install_result_eq, do_install_backend_calls, h, hsplit,
        hloop.1]
    · rw [run_status, hokf]
      rfl
    · rw [run_lock_data_calls, hokf]
      rfl

/-- An environment planning `[Install a@1.0, Install b@1.0]` in lock-replay
mode whose backend fails exactly on installing `b@1.0`. -/
def envFail : Env :=
  { locker := ⟨true, fun _ => ⟨[pkgA1, pkgB1]⟩, fun _ _ => true⟩
    installed_repository := ⟨[]⟩
    solve := fun _ _ _ => []
    backend_ok := fun c => !(c == BackendCall.install pkgB1) }

/-- C7 witness: the execution-order theorem applied at a concrete run whose
second backend call fails — both calls up to the failure are made, the status
is an error, and no lock write happens. -/
theorem execute_order_and_failure_witness :
    ((instLockReplay.run envFail).installer.execute_operations = true) ∧
    ((instLockReplay.run envFail).ops =
      [Operation.install pkgA1] ++ Operation.install pkgB1 :: []) ∧
    ((instLockReplay.run envFail).trace.backend_calls =
        ([Operation.install pkgA1] ++ [Operation.install pkgB1]).map execute_dispatch ∧
      (instLockReplay.run envFail).status = none ∧
      (instLockReplay.run envFail).trace.lock_data_calls = []) :=
  ⟨by decide, by decide,
    (execute_order_and_failure instLockReplay envFail (by decide)).2
      [Operation.install pkgA1] (Operation.install pkgB1) [] (by decide) (by decide)
      (by decide)⟩

/-- C8: when the Locker reports that no persisted lock exists, `run` forces
`update` to true regardless of its initial value, and planning proceeds in
update (Solver) mode — the Solver is invoked. -/
theorem no_lock_forces_update (inst : Installer) (env : Env)
    (h : env.locker.is_locked = false) :
    (inst.run env).installer.update = true ∧
    (inst.run env).trace.solve_calls ≠ [] := by
  have hu : (run_forced inst env).update = true := by simp [h]
  constructor
  · rw [run_installer, rir_installer_update]
    exact hu
  · rw [run_solve_calls, run_install_result_eq, do_install_solve_calls, hu]
    simp

/-- An environment with no persisted lock. -/
def envNoLock : Env :=
  { locker := ⟨false, fun _ => ⟨[]⟩, fun _ _ => true⟩
    installed_repository := ⟨[]⟩
    solve := fun _ _ _ => []
    backend_ok := fun _ => true }

/-- C8 witness: the update-forcing theorem applied at a concrete run whose
`update` toggle starts false and whose locker reports no lock. -/
theorem no_lock_forces_update_witness :
    (envNoLock.locker.is_locked = false) ∧
    ((instLockReplay.run envNoLock).installer.update = true ∧
      (instLockReplay.run envNoLock).trace.solve_calls ≠ []) :=
  ⟨rfl, no_lock_forces_update instLockReplay envNoLock rfl⟩

theorem rir_installer_dry_run (inst : Installer) (env : Env) :
    (run_install_result inst env).installer.dry_run = (run_forced inst env).dry_run := rfl

theorem rir_installer_dev_mode (inst : Installer) (env : Env) :
    (run_install_result inst env).installer.dev_mode = (run_forced inst env).dev_mode := rfl

theorem rir_installer_verbose (inst : Installer) (env : Env) :
    (run_install_result inst env).installer.verbose = (run_forced inst env).verbose := rfl

/-- C9: evaluation of the code at the failing input — `request =
self._package.requires` aliases the root package's requirement list, so the
in-place `request += self._package.dev_requires` under `dev_mode` appends the
development requirements to the root package itself: after `run()` the root
package's runtime requirements are `["req-a", "req-dev"]`, not the original
`["req-a"]`, contradicting the spec's "immutable once constructed". -/
theorem root_package_mutated :
    instLockReplay.package.requires = ["req-a"] ∧
    (instLockReplay.run envQuiet).installer.package.requires =
      ["req-a", "req-dev"] := by decide

/-- C10 counterexample: a run with `dry_run = true` and `verbose` initially
false leaves `verbose` permanently true after `run()` returns — the forced
toggle values leak into subsequent runs. -/
theorem toggles_mutated_counterexample :
    ({ instLockReplay with dry_run := true } : Installer).verbose = false ∧
    ({ instLockReplay with dry_run := true }.run envQuiet).installer.verbose =
      true := by decide

/-- C10 amended: the toggle values after `run()` are the mode-forced ones, and
only those — `dry_run` and `dev_mode` are never mutated, while `update` (forced
true when unlocked), `verbose` (forced true by dry-run), `write_lock` and
`execute_operations` (forced false by dry-run) retain the forced values after
the run instead of their entry values. -/
theorem toggles_after_run (inst : Installer) (env : Env) :
    (inst.run env).installer.dry_run = inst.dry_run ∧
    (inst.run env).installer.dev_mode = inst.dev_mode ∧
    (inst.run env).installer.update = (inst.update || !env.locker.is_locked) ∧
    (inst.run env).installer.verbose = (inst.verbose || inst.dry_run) ∧
    (inst.run env).installer.write_lock = (inst.write_lock && !inst.dry_run) ∧
    (inst.run env).installer.execute_operations =
      (inst.execute_operations && !inst.dry_run) := by
  refine ⟨?_, ?_, ?_, ?_, ?_, ?_⟩
  · rw [run_installer, rir_installer_dry_run, run_forced_dry_run]
  · rw [run_installer, rir_installer_dev_mode, run_forced_dev_mode]
  · rw [run_installer, rir_installer_update, run_forced_update]
  · rw [run_installer, rir_installer_verbose, run_forced_verbose]
  · rw [run_installer, rir_installer_write_lock, run_forced_write_lock]
  · rw [run_installer, rir_installer_execute_operations, run_forced_execute_operations]

end Poetry
